import Mathlib

set_option maxHeartbeats 1000000

namespace Afem

/-- The topological kind tags of the kernel (TopAbs_ShapeEnum): the eight
concrete kinds plus the generic TopAbs_SHAPE tag. -/
inductive ShapeType where
  | vertex
  | edge
  | wire
  | face
  | shell
  | solid
  | compsolid
  | compound
  | shape
deriving DecidableEq, Repr

/-- One entry of a BRepCheck result status list: BRepCheck_NoError is the
clean status, and every other analyzer status is represented by its numeric
code (e.g. BRepCheck_NoCurve3d). -/
inductive BRepCheckStatus where
  | noError
  | badStatus (code : Nat)
deriving DecidableEq, Repr

/-- The observable data of one topological entity: an identity label, its
ShapeType tag and its IsNull flag.  Geometric payloads (curves, surfaces,
locations) are outside the topological model. -/
structure ShapeData where
  label : Nat
  shapeType : ShapeType
  isNull : Bool
deriving DecidableEq, Repr

/-- A TopoDS_Shape as seen by this layer: its own data together with the
list of immediate sub-shapes yielded by TopoDS_Iterator, in iteration
order. -/
inductive TopoShape where
  | node (data : ShapeData) (children : List TopoShape)

mutual

def TopoShape.decEq : (a b : TopoShape) → Decidable (a = b)
  | .node d cs, .node d' cs' =>
    if h1 : d = d' then
      match TopoShape.decEqList cs cs' with
      | isTrue h2 => isTrue (by subst h1; subst h2; rfl)
      | isFalse h2 => isFalse (fun h => h2 (by cases h; rfl))
    else isFalse (fun h => h1 (by cases h; rfl))

def TopoShape.decEqList : (a b : List TopoShape) → Decidable (a = b)
  | [], [] => isTrue rfl
  | c :: r, c' :: r' =>
    match TopoShape.decEq c c', TopoShape.decEqList r r' with
    | isTrue h1, isTrue h2 => isTrue (by subst h1; subst h2; rfl)
    | isFalse h1, _ => isFalse (fun h => h1 (by cases h; rfl))
    | _, isFalse h2 => isFalse (fun h => h2 (by cases h; rfl))
  | [], _ :: _ => isFalse (fun h => by cases h)
  | _ :: _, [] => isFalse (fun h => by cases h)

end

instance : DecidableEq TopoShape := TopoShape.decEq

def TopoShape.label : TopoShape → Nat
  | .node d _ => d.label

def TopoShape.shapeType : TopoShape → ShapeType
  | .node d _ => d.shapeType

def TopoShape.isNull : TopoShape → Bool
  | .node d _ => d.isNull

def TopoShape.children : TopoShape → List TopoShape
  | .node _ cs => cs

mutual

/-- All labels occurring in a shape's sub-shape tree, the shape itself
included. -/
def treeLabels : TopoShape → List Nat
  | .node d cs => d.label :: forestLabels cs

def forestLabels : List TopoShape → List Nat
  | [] => []
  | c :: r => treeLabels c ++ forestLabels r

end

/-- The Python class under which a shape object is held by the binding:
either the generic TopoDS_Shape class or one of its concrete subclasses
(TopoDS_Vertex .. TopoDS_Compound).  A downcast via TopoDS.X_ re-wraps the
same underlying shape under the concrete class X. -/
inductive PyShapeClass where
  | generic
  | concrete (t : ShapeType)
deriving DecidableEq, Repr

/-- The messages of the exceptions the coercion layer can raise; each
constructor stands for one fixed message string of the source. -/
inductive ErrMsg where
  | failedVertex
  | failedEdge
  | failedWire
  | failedFace
  | failedShell
  | failedSolid
  | failedCompSolid
  | failedCompound
  | failedShape
  | cannotConvertNullShape
  | incompatibleArgs
  | noShapeTypeAttr
  | unboundMethodCall
deriving DecidableEq, Repr

/-- The exceptions observable from this layer.  `invalidShapeError` is the
kernel's rejection of a null shape (Standard_NullObject), which the spec
names InvalidShapeError; `standardTypeMismatch` is the kernel's rejection of
a downcast to the wrong concrete kind. -/
inductive PyError where
  | typeError (msg : ErrMsg)
  | attributeError (msg : ErrMsg)
  | invalidShapeError
  | standardTypeMismatch
deriving DecidableEq, Repr

/-- The runtime values the coercion entry points can receive: Python None,
shape objects (a binding class around an underlying shape), kernel point
primitives (gp_Pnt), raw 3-component point values, curve-like and
surface-like geometry wrappers, the class object bound by the bare name
TopoDS_Compound, and arbitrary other objects without a ShapeType
attribute. -/
inductive Entity where
  | none
  | shape (cls : PyShapeClass) (s : TopoShape)
  | gpPnt (x y z : ℚ)
  | pointTriple (x y z : ℚ)
  | curveLike (id : Nat)
  | surfaceLike (id : Nat)
  | topoDSCompoundClass
  | otherObj (id : Nat)
deriving DecidableEq

/-- CheckShape.is_shape: isinstance(shape, TopoDS_Shape); true for a shape
object held under the generic class or any concrete subclass. -/
def Entity.is_shape : Entity → Bool
  | .shape _ _ => true
  | _ => false

/-- isinstance(entity, TopoDS_X) for the concrete subclass X: true only for
a shape object held under exactly that concrete class. -/
def Entity.isinstanceConcrete (t : ShapeType) : Entity → Bool
  | .shape (.concrete t') _ => t' == t
  | _ => false

/-- entity.ShapeType() where the caller has already established the entity
is a shape: the stored kind tag. -/
def Entity.shapeTag : Entity → Option ShapeType
  | .shape _ s => some s.shapeType
  | _ => Option.none

/-- entity.IsNull() for a shape entity. -/
def Entity.topoIsNull : Entity → Bool
  | .shape _ s => s.isNull
  | _ => false

/-- The attempt to call entity.ShapeType() on an arbitrary value: shape
objects answer their kind tag; an object without the attribute raises
AttributeError; calling the method on the bare class object raises
TypeError (the attribute exists on the class, but unbound). -/
def callShapeType : Entity → Except PyError ShapeType
  | .shape _ s => .ok s.shapeType
  | .topoDSCompoundClass => .error (.typeError .unboundMethodCall)
  | _ => .error (.attributeError .noShapeTypeAttr)

/-- Whether a value supports the shape-type query at all (the ShapeType
attribute exists on it, bound or not). -/
def hasShapeTypeAttr : Entity → Bool
  | .shape _ _ => true
  | .topoDSCompoundClass => true
  | _ => false

/-- TopoDS.X_(entity): a kernel downcast; re-wraps the same underlying
shape under the concrete class when the kind tag matches, and raises
Standard_TypeMismatch otherwise. -/
def topoDS_cast (t : ShapeType) : Entity → Except PyError Entity
  | .shape _ s =>
      if s.shapeType = t then .ok (.shape (.concrete t) s)
      else .error .standardTypeMismatch
  | _ => .error .standardTypeMismatch

/-- Modelled from the spec: CheckGeom.is_point_like (afem.geometry.check is
not under src/) recognizes kernel point primitives and raw 3-component
point values. -/
def is_point_like : Entity → Bool
  | .gpPnt _ _ _ => true
  | .pointTriple _ _ _ => true
  | _ => false

/-- isinstance(entity, gp_Pnt). -/
def isinstanceGpPnt : Entity → Bool
  | .gpPnt _ _ _ => true
  | _ => false

/-- Modelled from the spec: CheckGeom.is_curve (afem.geometry.check is not
under src/) recognizes values with an underlying parametric curve. -/
def is_curve : Entity → Bool
  | .curveLike _ => true
  | _ => false

/-- Modelled from the spec: CheckGeom.is_surface (afem.geometry.check is
not under src/) recognizes values with an underlying parametric surface. -/
def is_surface : Entity → Bool
  | .surfaceLike _ => true
  | _ => false

/-- BRepBuilderAPI_MakeVertex(p).Vertex(): a freshly built vertex shape
(its geometric location lies outside the topological model). -/
def makeVertex : Entity :=
  .shape (.concrete .vertex) (.node ⟨0, .vertex, false⟩ [])

/-- BRepBuilderAPI_MakeEdge(curve).Edge(): a freshly built edge spanning
the curve. -/
def makeEdgeFromCurve : Entity :=
  .shape (.concrete .edge) (.node ⟨0, .edge, false⟩ [])

/-- BRepBuilderAPI_MakeFace(surface, 0.).Face(): a freshly built face over
the surface. -/
def makeFaceFromSurface : Entity :=
  .shape (.concrete .face) (.node ⟨0, .face, false⟩ [])

/-- BRepBuilderAPI_MakeWire(e).Wire(): a freshly built wire holding the
given edge shape as its sole member. -/
def makeWireOf : Entity → Except PyError Entity
  | .shape _ s => .ok (.shape (.concrete .wire) (.node ⟨0, .wire, false⟩ [s]))
  | _ => .error (.typeError .incompatibleArgs)

/-- The expression TopoDS_Shell(): a freshly constructed empty shell
instance. -/
def newShellInstance : Entity :=
  .shape (.concrete .shell) (.node ⟨0, .shell, false⟩ [])

/-- BRep_Builder().MakeShell(shell) via the binding: accepts only a
TopoDS_Shell instance, which it (re)initializes as an empty shell; any
other argument is rejected by the binding with a TypeError. -/
def builder_MakeShell : Entity → Except PyError Entity
  | .shape (.concrete .shell) (.node d _) => .ok (.shape (.concrete .shell) (.node d []))
  | _ => .error (.typeError .incompatibleArgs)

/-- BRep_Builder().MakeCompound(cp) via the binding: accepts only a
TopoDS_Compound instance, which it (re)initializes as an empty compound;
any other argument (in particular a class object) is rejected by the
binding with a TypeError. -/
def builder_MakeCompound : Entity → Except PyError Entity
  | .shape (.concrete .compound) (.node d _) => .ok (.shape (.concrete .compound) (.node d []))
  | _ => .error (.typeError .incompatibleArgs)

/-- BRep_Builder().Add(container, member) via the binding: appends the
member shape to the container shape's sub-shapes; non-shape arguments are
rejected by the binding with a TypeError. -/
def builder_Add : Entity → Entity → Except PyError Entity
  | .shape cls (.node d cs), .shape _ ms => .ok (.shape cls (.node d (cs ++ [ms])))
  | _, _ => .error (.typeError .incompatibleArgs)

/-- CheckShape.to_vertex: identity for a TopoDS_Vertex instance; a fresh
vertex for a gp_Pnt or for a point-like value; a downcast for a shape
whose kind tag is Vertex; TypeError otherwise. -/
def to_vertex (entity : Entity) : Except PyError Entity :=
  if entity.isinstanceConcrete .vertex then .ok entity
  else if isinstanceGpPnt entity then .ok makeVertex
  else if is_point_like entity then .ok makeVertex
  else if entity.is_shape && entity.shapeTag == some .vertex then
    topoDS_cast .vertex entity
  else .error (.typeError .failedVertex)

/-- CheckShape.to_edge: identity for a TopoDS_Edge instance; a fresh edge
for a curve-like value; a downcast for a shape whose kind tag is Edge;
TypeError otherwise. -/
def to_edge (entity : Entity) : Except PyError Entity :=
  if entity.isinstanceConcrete .edge then .ok entity
  else if is_curve entity then .ok makeEdgeFromCurve
  else if entity.is_shape && entity.shapeTag == some .edge then
    topoDS_cast .edge entity
  else .error (.typeError .failedEdge)

/-- CheckShape.to_wire: identity for a TopoDS_Wire instance; for a
curve-like value, a fresh edge wrapped in a fresh single-edge wire; for a
shape tagged Edge, a fresh wire around it; a downcast for a shape tagged
Wire; TypeError otherwise. -/
def to_wire (entity : Entity) : Except PyError Entity :=
  if entity.isinstanceConcrete .wire then .ok entity
  else if is_curve entity then makeWireOf makeEdgeFromCurve
  else if entity.is_shape && entity.shapeTag == some .edge then
    makeWireOf entity
  else if entity.is_shape && entity.shapeTag == some .wire then
    topoDS_cast .wire entity
  else .error (.typeError .failedWire)

/-- CheckShape.to_face: identity for a TopoDS_Face instance; a fresh face
for a surface-like value; a downcast for a shape tagged Face; TypeError
otherwise. -/
def to_face (entity : Entity) : Except PyError Entity :=
  if entity.isinstanceConcrete .face then .ok entity
  else if is_surface entity then .ok makeFaceFromSurface
  else if entity.is_shape && entity.shapeTag == some .face then
    topoDS_cast .face entity
  else .error (.typeError .failedFace)

/-- CheckShape.to_shell: identity for a TopoDS_Shell instance; a downcast
for a shape tagged Shell; for a shape tagged Face, a fresh shell built
around it with BRep_Builder (TopoDS_Shell() instance, MakeShell, Add); the
same construction around a fresh face for a surface-like value; TypeError
otherwise. -/
def to_shell (entity : Entity) : Except PyError Entity :=
  if entity.isinstanceConcrete .shell then .ok entity
  else if entity.is_shape && entity.shapeTag == some .shell then
    topoDS_cast .shell entity
  else if entity.is_shape && entity.shapeTag == some .face then do
    let shell := newShellInstance
    let shell ← builder_MakeShell shell
    builder_Add shell entity
  else if is_surface entity then do
    let f := makeFaceFromSurface
    let shell := newShellInstance
    let shell ← builder_MakeShell shell
    builder_Add shell f
  else .error (.typeError .failedShell)

/-- CheckShape.to_solid: identity for a TopoDS_Solid instance; a downcast
for a shape tagged Solid; TypeError otherwise — there is no construction
fallback. -/
def to_solid (entity : Entity) : Except PyError Entity :=
  if entity.isinstanceConcrete .solid then .ok entity
  else if entity.is_shape && entity.shapeTag == some .solid then
    topoDS_cast .solid entity
  else .error (.typeError .failedSolid)

/-- CheckShape.to_compsolid: identity for a TopoDS_CompSolid instance; a
downcast for a shape tagged CompSolid; TypeError otherwise — there is no
construction fallback. -/
def to_compsolid (entity : Entity) : Except PyError Entity :=
  if entity.isinstanceConcrete .compsolid then .ok entity
  else if entity.is_shape && entity.shapeTag == some .compsolid then
    topoDS_cast .compsolid entity
  else .error (.typeError .failedCompSolid)

/-- CheckShape.to_compound: identity for a TopoDS_Compound instance; a
downcast for a shape tagged Compound; otherwise, for any shape, the source
attempts to build a fresh compound — but its line `cp = TopoDS_Compound`
binds the class object itself rather than a fresh instance
`TopoDS_Compound()` (contrast `shell = TopoDS_Shell()` in to_shell), so the
subsequent builder call MakeCompound(cp) is rejected by the binding;
TypeError for non-shapes. -/
def to_compound (entity : Entity) : Except PyError Entity :=
  if entity.isinstanceConcrete .compound then .ok entity
  else if entity.is_shape && entity.shapeTag == some .compound then
    topoDS_cast .compound entity
  else if entity.is_shape then do
    let cp := Entity.topoDSCompoundClass
    let cp ← builder_MakeCompound cp
    builder_Add cp entity
  else .error (.typeError .failedCompound)

/-- CheckShape.to_shape: None maps to an absent result; a shape object is
rejected when null and otherwise downcast by its own kind tag to the most
specific concrete class, with an unrecognized tag rejected; point-like,
curve-like and surface-like values delegate to to_vertex, to_edge and
to_face; anything else is rejected. -/
def to_shape : Entity → Except PyError (Option Entity)
  | .none => .ok Option.none
  | entity =>
      if entity.is_shape then
        if entity.topoIsNull then .error (.typeError .cannotConvertNullShape)
        else if entity.shapeTag == some .vertex then (topoDS_cast .vertex entity).map some
        else if entity.shapeTag == some .edge then (topoDS_cast .edge entity).map some
        else if entity.shapeTag == some .wire then (topoDS_cast .wire entity).map some
        else if entity.shapeTag == some .face then (topoDS_cast .face entity).map some
        else if entity.shapeTag == some .shell then (topoDS_cast .shell entity).map some
        else if entity.shapeTag == some .solid then (topoDS_cast .solid entity).map some
        else if entity.shapeTag == some .compsolid then (topoDS_cast .compsolid entity).map some
        else if entity.shapeTag == some .compound then (topoDS_cast .compound entity).map some
        else .error (.typeError .failedShape)
      else if is_point_like entity then (to_vertex entity).map some
      else if is_curve entity then (to_edge entity).map some
      else if is_surface entity then (to_face entity).map some
      else .error (.typeError .failedShape)

/-- CheckShape.is_vertex: answers whether shape.ShapeType() is Vertex,
catching AttributeError (and only AttributeError) as False. -/
def is_vertex (e : Entity) : Except PyError Bool :=
  match callShapeType e with
  | .ok t => .ok (t == ShapeType.vertex)
  | .error (.attributeError _) => .ok false
  | .error err => .error err

/-- CheckShape.is_edge, with the same try/except structure as is_vertex. -/
def is_edge (e : Entity) : Except PyError Bool :=
  match callShapeType e with
  | .ok t => .ok (t == ShapeType.edge)
  | .error (.attributeError _) => .ok false
  | .error err => .error err

/-- CheckShape.is_wire, with the same try/except structure as is_vertex. -/
def is_wire (e : Entity) : Except PyError Bool :=
  match callShapeType e with
  | .ok t => .ok (t == ShapeType.wire)
  | .error (.attributeError _) => .ok false
  | .error err => .error err

/-- CheckShape.is_face, with the same try/except structure as is_vertex. -/
def is_face (e : Entity) : Except PyError Bool :=
  match callShapeType e with
  | .ok t => .ok (t == ShapeType.face)
  | .error (.attributeError _) => .ok false
  | .error err => .error err

/-- CheckShape.is_shell, with the same try/except structure as is_vertex. -/
def is_shell (e : Entity) : Except PyError Bool :=
  match callShapeType e with
  | .ok t => .ok (t == ShapeType.shell)
  | .error (.attributeError _) => .ok false
  | .error err => .error err

/-- CheckShape.is_solid, with the same try/except structure as is_vertex. -/
def is_solid (e : Entity) : Except PyError Bool :=
  match callShapeType e with
  | .ok t => .ok (t == ShapeType.solid)
  | .error (.attributeError _) => .ok false
  | .error err => .error err

/-- The per-sub-shape outcome of one analyzer run: for each sub-shape
(identified by its label), the status list answered by
check.Result(sub_shape).Status(). -/
def StatusMap : Type := Nat → List BRepCheckStatus

/-- The number of non-NoError entries of a status list. -/
def badCount (l : List BRepCheckStatus) : Nat :=
  (l.filter (fun st => st != BRepCheckStatus.noError)).length

mutual

/-- The function _invalid_subshapes of the source: iterate over the
immediate sub-shapes; for each sub-shape, append it once per non-NoError
status in its result list, then recurse into it unconditionally; the shape
itself is never inspected.  The dump option only prints and does not
affect the returned list, so it is not modelled. -/
def invalidSubshapes (S : StatusMap) : TopoShape → List TopoShape
  | .node _ cs => invalidForest S cs

def invalidForest (S : StatusMap) : List TopoShape → List TopoShape
  | [] => []
  | sub :: rest =>
      ((S sub.label).filter (fun st => st != BRepCheckStatus.noError)).map (fun _ => sub)
        ++ invalidSubshapes S sub ++ invalidForest S rest

end

mutual

/-- BRepCheck_Analyzer.IsValid() (external kernel): the shape is valid iff
every status recorded for it and for every sub-shape at any depth is
NoError. -/
def subtreeClean (S : StatusMap) : TopoShape → Bool
  | .node d cs => (S d.label).all (fun st => st == BRepCheckStatus.noError) && forestClean S cs

def forestClean (S : StatusMap) : List TopoShape → Bool
  | [] => true
  | c :: r => subtreeClean S c && forestClean S r

end

/-- The kernel validity analyzer BRepCheck_Analyzer (external collaborator):
after a successful run it owns the analyzed root shape and the status map
the run produced. -/
structure Analyzer where
  root : TopoShape
  S : StatusMap

/-- Construction of BRepCheck_Analyzer(shape, geom): the kernel rejects a
null shape (Standard_NullObject, which the spec names InvalidShapeError)
and otherwise performs the analysis; the status map produced by the run is
supplied as the oracle S (it is the kernel's output for this shape/geom
pair). -/
def mkAnalyzer (shape : TopoShape) (_geom : Bool) (S : StatusMap) :
    Except PyError Analyzer :=
  if shape.isNull then .error .invalidShapeError else .ok ⟨shape, S⟩

/-- The analyzer's overall verdict for its root shape. -/
def Analyzer.isValidAll (a : Analyzer) : Bool :=
  subtreeClean a.S a.root

/-- The state held by a constructed CheckShape instance: the analyzer and
the cached invalid-sub-shape list. -/
structure CheckShape where
  check : Analyzer
  invalid : List TopoShape

/-- CheckShape.__init__(shape, geom, dump): build the analyzer (which
rejects a null shape), start from an empty invalid list, and fill it with
the recursive walk only when the analyzer reports the shape invalid.  The
dump flag only controls diagnostic printing. -/
def CheckShape.make (S : StatusMap) (shape : TopoShape) (geom : Bool)
    (_dump : Bool) : Except PyError CheckShape := do
  let check ← mkAnalyzer shape geom S
  let invalid := if check.isValidAll then [] else invalidSubshapes S shape
  .ok ⟨check, invalid⟩

/-- The is_valid property: re-asks the analyzer for the overall verdict. -/
def CheckShape.is_valid (c : CheckShape) : Bool :=
  c.check.isValidAll

/-- The invalid_shapes property: the cached list. -/
def CheckShape.invalid_shapes (c : CheckShape) : List TopoShape :=
  c.invalid

/-- The four-valued TopAbs_State enumeration of the kernel. -/
inductive TopAbsState where
  | IN
  | OUT
  | ON
  | UNKNOWN
deriving DecidableEq, Repr

/-- Modelled from the spec: the state of the external kernel solid
classifier (BRepClass3d_SolidClassifier) after a classification: a
TopAbs_State, plus the bounding face the kernel resolved, which it does
only when the state is ON (spec: is_on_face is true iff the state is ON
and the kernel additionally resolved a specific bounding face). -/
structure SolidClassifierTool where
  state : TopAbsState
  onFace : Option TopoShape
  onFace_on : onFace.isSome = true → state = TopAbsState.ON

/-- The classifier kernel call Perform(pnt, tol): an oracle from the
normalized point and tolerance to the resulting tool state. -/
def KernelPerform : Type := (ℚ × ℚ × ℚ) → ℚ → SolidClassifierTool

/-- The state held by a ClassifyPointInSolid instance: its kernel tool. -/
structure ClassifyPointInSolid where
  tool : SolidClassifierTool

/-- ClassifyPointInSolid.perform(pnt, tol): normalize the point (the
CheckGeom.to_point step of the source; afem.geometry.check is not under
src/ and is modelled from the spec as producing a 3-component coordinate)
and let the kernel classify it, replacing the prior tool state entirely. -/
def ClassifyPointInSolid.perform (kernel : KernelPerform)
    (_c : ClassifyPointInSolid) (pnt : ℚ × ℚ × ℚ) (tol : ℚ) :
    ClassifyPointInSolid :=
  ⟨kernel pnt tol⟩

/-- The is_in property: the cached state compared with TopAbs_IN. -/
def ClassifyPointInSolid.is_in (c : ClassifyPointInSolid) : Bool :=
  c.tool.state == TopAbsState.IN

/-- The is_out property: the cached state compared with TopAbs_OUT. -/
def ClassifyPointInSolid.is_out (c : ClassifyPointInSolid) : Bool :=
  c.tool.state == TopAbsState.OUT

/-- The is_on property: the cached state compared with TopAbs_ON. -/
def ClassifyPointInSolid.is_on (c : ClassifyPointInSolid) : Bool :=
  c.tool.state == TopAbsState.ON

/-- The is_unknown property: the cached state compared with
TopAbs_UNKNOWN. -/
def ClassifyPointInSolid.is_unknown (c : ClassifyPointInSolid) : Bool :=
  c.tool.state == TopAbsState.UNKNOWN

/-- The is_on_face property: the kernel's IsOnAFace() answer. -/
def ClassifyPointInSolid.is_on_face (c : ClassifyPointInSolid) : Bool :=
  c.tool.onFace.isSome

/-- A bare, valid (non-null), childless face shape held under the concrete
face class. -/
def bareFace : Entity := .shape (.concrete .face) (.node ⟨10, .face, false⟩ [])

/-- A bare, valid (non-null), childless edge shape held under the concrete
edge class. -/
def bareEdge : Entity := .shape (.concrete .edge) (.node ⟨11, .edge, false⟩ [])

/-- C4: for the absent input (Python None), to_shape succeeds with an
absent result and raises nothing; and it is the only coercion operation
with such a no-value success case — every other to_X operation rejects
None with a TypeError. -/
theorem to_shape_none_absent :
    to_shape Entity.none = .ok Option.none ∧
    to_vertex Entity.none = .error (.typeError .failedVertex) ∧
    to_edge Entity.none = .error (.typeError .failedEdge) ∧
    to_wire Entity.none = .error (.typeError .failedWire) ∧
    to_face Entity.none = .error (.typeError .failedFace) ∧
    to_shell Entity.none = .error (.typeError .failedShell) ∧
    to_solid Entity.none = .error (.typeError .failedSolid) ∧
    to_compsolid Entity.none = .error (.typeError .failedCompSolid) ∧
    to_compound Entity.none = .error (.typeError .failedCompound) :=
  ⟨rfl, rfl, rfl, rfl, rfl, rfl, rfl, rfl, rfl⟩

/-- C7: for every concrete non-null shape whose kind tag is one of the
eight concrete kinds, to_shape succeeds and returns the downcast of the
same underlying shape, whose reported kind tag is exactly the input's. -/
theorem to_shape_concrete_roundtrip (cls : PyShapeClass) (s : TopoShape)
    (h0 : s.isNull = false) (h1 : s.shapeType ≠ ShapeType.shape) :
    to_shape (.shape cls s) = .ok (some (.shape (.concrete s.shapeType) s)) ∧
    Entity.shapeTag (.shape (.concrete s.shapeType) s) = some s.shapeType := by
  refine ⟨?_, rfl⟩
  cases s with
  | node d cs =>
    simp only [TopoShape.isNull] at h0
    simp only [TopoShape.shapeType] at h1 ⊢
    cases htag : d.shapeType <;>
      simp_all [to_shape, Entity.is_shape, Entity.topoIsNull, TopoShape.isNull,
        Entity.shapeTag, TopoShape.shapeType, topoDS_cast, Except.map]

/-- C7 witness: round-trip identity evaluated on a concrete non-null
vertex shape. -/
theorem to_shape_concrete_roundtrip_witness :
    (TopoShape.node ⟨3, .vertex, false⟩ []).isNull = false ∧
    (TopoShape.node ⟨3, .vertex, false⟩ []).shapeType ≠ ShapeType.shape ∧
    to_shape (.shape .generic (.node ⟨3, .vertex, false⟩ [])) =
      .ok (some (.shape (.concrete .vertex) (.node ⟨3, .vertex, false⟩ []))) :=
  ⟨rfl, by decide,
    (to_shape_concrete_roundtrip .generic (.node ⟨3, .vertex, false⟩ [])
      rfl (by decide)).1⟩

/-- C10: the shape-kind predicates is_vertex .. is_solid are total on
inputs that do not support the shape-type query: each answers False
instead of raising. -/
theorem kind_predicates_total (e : Entity) (h : hasShapeTypeAttr e = false) :
    is_vertex e = .ok false ∧ is_edge e = .ok false ∧ is_wire e = .ok false ∧
    is_face e = .ok false ∧ is_shell e = .ok false ∧ is_solid e = .ok false := by
  cases e <;> simp_all [hasShapeTypeAttr, is_vertex, is_edge, is_wire, is_face,
    is_shell, is_solid, callShapeType]

/-- C10 witness: the predicates evaluated on a concrete attribute-less
object. -/
theorem kind_predicates_total_witness :
    hasShapeTypeAttr (.otherObj 0) = false ∧
    (is_vertex (.otherObj 0) = .ok false ∧ is_edge (.otherObj 0) = .ok false ∧
     is_wire (.otherObj 0) = .ok false ∧ is_face (.otherObj 0) = .ok false ∧
     is_shell (.otherObj 0) = .ok false ∧ is_solid (.otherObj 0) = .ok false) :=
  ⟨rfl, kind_predicates_total (.otherObj 0) rfl⟩

/-- C8: after perform(p, tol) the classifier state is one of the four
TopAbs values, so exactly one of is_in, is_out, is_on, is_unknown holds at
a time; and a true is_on_face forces the ON state. -/
theorem classifier_state_exclusive (kernel : KernelPerform)
    (c : ClassifyPointInSolid) (pnt : ℚ × ℚ × ℚ) (tol : ℚ) :
    ((ClassifyPointInSolid.perform kernel c pnt tol).is_in.toNat +
      (ClassifyPointInSolid.perform kernel c pnt tol).is_out.toNat +
      (ClassifyPointInSolid.perform kernel c pnt tol).is_on.toNat +
      (ClassifyPointInSolid.perform kernel c pnt tol).is_unknown.toNat = 1) ∧
    ((ClassifyPointInSolid.perform kernel c pnt tol).is_on_face = true →
      (ClassifyPointInSolid.perform kernel c pnt tol).is_on = true) := by
  constructor
  · cases h : (ClassifyPointInSolid.perform kernel c pnt tol).tool.state <;>
      simp [ClassifyPointInSolid.is_in, ClassifyPointInSolid.is_out,
        ClassifyPointInSolid.is_on, ClassifyPointInSolid.is_unknown, h] <;>
      decide
  · intro hf
    have hs := (ClassifyPointInSolid.perform kernel c pnt tol).tool.onFace_on
      (by simpa [ClassifyPointInSolid.is_on_face] using hf)
    simp [ClassifyPointInSolid.is_on, hs]

/-- C8 witness: a concrete kernel answer in the ON state with a resolved
face; exactly one predicate holds and is_on_face indeed comes with ON. -/
theorem classifier_state_exclusive_witness :
    ((ClassifyPointInSolid.perform
        (fun _ _ => ⟨TopAbsState.ON, some (.node ⟨5, .face, false⟩ []), fun _ => rfl⟩)
        ⟨⟨TopAbsState.UNKNOWN, Option.none, fun h => by cases h⟩⟩
        (0, 0, 0) (1 / 10000000)).is_in.toNat +
      (ClassifyPointInSolid.perform
        (fun _ _ => ⟨TopAbsState.ON, some (.node ⟨5, .face, false⟩ []), fun _ => rfl⟩)
        ⟨⟨TopAbsState.UNKNOWN, Option.none, fun h => by cases h⟩⟩
        (0, 0, 0) (1 / 10000000)).is_out.toNat +
      (ClassifyPointInSolid.perform
        (fun _ _ => ⟨TopAbsState.ON, some (.node ⟨5, .face, false⟩ []), fun _ => rfl⟩)
        ⟨⟨TopAbsState.UNKNOWN, Option.none, fun h => by cases h⟩⟩
        (0, 0, 0) (1 / 10000000)).is_on.toNat +
      (ClassifyPointInSolid.perform
        (fun _ _ => ⟨TopAbsState.ON, some (.node ⟨5, .face, false⟩ []), fun _ => rfl⟩)
        ⟨⟨TopAbsState.UNKNOWN, Option.none, fun h => by cases h⟩⟩
        (0, 0, 0) (1 / 10000000)).is_unknown.toNat = 1) ∧
    (ClassifyPointInSolid.perform
        (fun _ _ => ⟨TopAbsState.ON, some (.node ⟨5, .face, false⟩ []), fun _ => rfl⟩)
        ⟨⟨TopAbsState.UNKNOWN, Option.none, fun h => by cases h⟩⟩
        (0, 0, 0) (1 / 10000000)).is_on = true :=
  ⟨(classifier_state_exclusive _ _ _ _).1,
    (classifier_state_exclusive _ _ _ _).2 rfl⟩

/-- Unfolding of CheckShape.make on a null shape: the analyzer rejects the
shape before any walk happens. -/
theorem CheckShape.make_eq_error (S : StatusMap) (shape : TopoShape)
    (geom dump : Bool) (h : shape.isNull = true) :
    CheckShape.make S shape geom dump = .error .invalidShapeError := by
  simp [CheckShape.make, mkAnalyzer, h, bind, Except.bind]

/-- Unfolding of CheckShape.make on a non-null shape: construction
succeeds, and the cached list is empty when the analyzer's verdict is
clean and the recursive walk's output otherwise. -/
theorem CheckShape.make_eq_ok (S : StatusMap) (shape : TopoShape)
    (geom dump : Bool) (h : shape.isNull = false) :
    CheckShape.make S shape geom dump =
      .ok ⟨⟨shape, S⟩,
        if subtreeClean S shape then [] else invalidSubshapes S shape⟩ := by
  simp [CheckShape.make, mkAnalyzer, h, bind, Except.bind, Analyzer.isValidAll]

/-- C5: validator construction succeeds for every non-null shape whatever
statuses the analysis produces — geometric invalidity is data, not an
error — and it fails exactly on a null shape, signalling the null-shape
rejection the spec names InvalidShapeError. -/
theorem checkshape_construction (S : StatusMap) (shape : TopoShape)
    (geom dump : Bool) :
    (shape.isNull = true →
      CheckShape.make S shape geom dump = .error .invalidShapeError) ∧
    (shape.isNull = false →
      ∃ c, CheckShape.make S shape geom dump = .ok c) :=
  ⟨fun h => CheckShape.make_eq_error S shape geom dump h,
   fun h => ⟨_, CheckShape.make_eq_ok S shape geom dump h⟩⟩

/-- C5 witness: construction evaluated on a concrete null shape and on a
concrete non-null shape carrying a defect status. -/
theorem checkshape_construction_witness :
    (TopoShape.node ⟨7, .shape, true⟩ []).isNull = true ∧
    (TopoShape.node ⟨8, .edge, false⟩ []).isNull = false ∧
    CheckShape.make (fun _ => [.badStatus 1]) (.node ⟨7, .shape, true⟩ []) true false
      = .error .invalidShapeError ∧
    (∃ c, CheckShape.make (fun _ => [.badStatus 1]) (.node ⟨8, .edge, false⟩ []) true false
      = .ok c) :=
  ⟨rfl, rfl,
    (checkshape_construction (fun _ => [.badStatus 1]) (.node ⟨7, .shape, true⟩ []) true false).1 rfl,
    (checkshape_construction (fun _ => [.badStatus 1]) (.node ⟨8, .edge, false⟩ []) true false).2 rfl⟩

/-- C1 evaluated at the failing input: to_compound on a valid non-null
Face does not produce a one-member compound.  The source line
`cp = TopoDS_Compound` binds the class object instead of a fresh instance
`TopoDS_Compound()` (contrast `shell = TopoDS_Shell()` in to_shell), so
the builder call MakeCompound(cp) is rejected and the conversion raises
instead of succeeding. -/
theorem to_compound_face_raises :
    to_compound bareFace = .error (.typeError .incompatibleArgs) := rfl

/-- C3 counterexample: the failure to_solid raises for a bare Face is the
very same error value it raises for a bare Edge, and that value names only
the requested kind — so the raised failure does not carry the input's
observed kind, contradicting the claimed
ConversionError(requested_kind, observed_kind) payload. -/
theorem to_solid_error_uniform :
    to_solid bareFace = .error (.typeError .failedSolid) ∧
    to_solid bareEdge = .error (.typeError .failedSolid) ∧
    to_solid bareFace = to_solid bareEdge :=
  ⟨rfl, rfl, rfl⟩

/-- C3 amended: to_solid (resp. to_compsolid) fails for every input that
is not already a Solid (resp. CompSolid) instance and whose kind tag is
not Solid (resp. CompSolid) — there is no construction fallback — and the
failure is the fixed TypeError naming only the requested kind, identical
for all such inputs. -/
theorem to_solid_to_compsolid_no_fallback (e : Entity) :
    (Entity.isinstanceConcrete .solid e = false →
      e.shapeTag ≠ some .solid →
      to_solid e = .error (.typeError .failedSolid)) ∧
    (Entity.isinstanceConcrete .compsolid e = false →
      e.shapeTag ≠ some .compsolid →
      to_compsolid e = .error (.typeError .failedCompSolid)) := by
  constructor <;> intro h1 h2 <;>
    simp [to_solid, to_compsolid, h1, h2]

/-- The status oracle of an analyzer run in which only the root shape
(label 0) carries a defect (as happens, e.g., for an edge missing its 3D
curve, flagged BRepCheck_NoCurve3d on the edge itself) while every
sub-shape is clean. -/
def rootOnlyDefect : StatusMap := fun l => if l == 0 then [.badStatus 1] else [.noError]

/-- An edge (label 0) with one clean vertex child (label 1). -/
def edgeWithVertex : TopoShape := .node ⟨0, .edge, false⟩ [.node ⟨1, .vertex, false⟩ []]

/-- C2 counterexample: when only the root shape itself is defective, the
constructed validator reports is_valid false while invalid_shapes is empty
— the recursive walk inspects only proper sub-shapes and never the root —
so invalid_shapes being empty is not equivalent to is_valid being true. -/
theorem invalid_empty_yet_invalid :
    (CheckShape.make rootOnlyDefect edgeWithVertex true false).map CheckShape.is_valid
      = .ok false ∧
    (CheckShape.make rootOnlyDefect edgeWithVertex true false).map CheckShape.invalid_shapes
      = .ok [] :=
  ⟨rfl, rfl⟩

/-- C2 amended: invalid_shapes is empty whenever is_valid is true, and
when is_valid is false it is exactly the recursive walk over the proper
sub-shapes — which can itself be empty when only the root shape carries a
defect, so the claimed equivalence holds only in the direction from
validity to emptiness. -/
theorem invalid_shapes_characterization (S : StatusMap) (shape : TopoShape)
    (geom dump : Bool) (c : CheckShape)
    (h : CheckShape.make S shape geom dump = .ok c) :
    (c.is_valid = true → c.invalid_shapes = []) ∧
    (c.is_valid = false → c.invalid_shapes = invalidSubshapes S shape) := by
  cases hn : shape.isNull with
  | true =>
      rw [CheckShape.make_eq_error S shape geom dump hn] at h
      cases h
  | false =>
      rw [CheckShape.make_eq_ok S shape geom dump hn] at h
      injection h with h
      subst h
      by_cases hc : subtreeClean S shape = true
      · refine ⟨fun _ => by simp [CheckShape.invalid_shapes, hc], fun hv => ?_⟩
        simp [CheckShape.is_valid, Analyzer.isValidAll, hc] at hv
      · refine ⟨fun hv => ?_, fun _ => by simp [CheckShape.invalid_shapes, hc]⟩
        simp [CheckShape.is_valid, Analyzer.isValidAll, hc] at hv

/-- The CheckShape value produced by the root-only-defect run. -/
def exampleCheck : CheckShape := ⟨⟨edgeWithVertex, rootOnlyDefect⟩, []⟩

/-- C2 witness: the amended characterization evaluated on the concrete
root-only-defect run. -/
theorem invalid_shapes_characterization_witness :
    CheckShape.make rootOnlyDefect edgeWithVertex true false = .ok exampleCheck ∧
    (exampleCheck.is_valid = true → exampleCheck.invalid_shapes = []) ∧
    (exampleCheck.is_valid = false →
      exampleCheck.invalid_shapes = invalidSubshapes rootOnlyDefect edgeWithVertex) :=
  ⟨rfl,
    (invalid_shapes_characterization rootOnlyDefect edgeWithVertex true false exampleCheck rfl).1,
    (invalid_shapes_characterization rootOnlyDefect edgeWithVertex true false exampleCheck rfl).2⟩

/-- C3 witness: the no-fallback failure evaluated on a bare Face, the
scenario named by the claim. -/
theorem to_solid_to_compsolid_no_fallback_witness :
    Entity.isinstanceConcrete .solid bareFace = false ∧
    bareFace.shapeTag ≠ some .solid ∧
    Entity.isinstanceConcrete .compsolid bareFace = false ∧
    bareFace.shapeTag ≠ some .compsolid ∧
    to_solid bareFace = .error (.typeError .failedSolid) ∧
    to_compsolid bareFace = .error (.typeError .failedCompSolid) :=
  ⟨rfl, by decide, rfl, by decide,
    (to_solid_to_compsolid_no_fallback bareFace).1 rfl (by decide),
    (to_solid_to_compsolid_no_fallback bareFace).2 rfl (by decide)⟩

theorem map_const_eq_replicate {α β : Type} (b : β) :
    ∀ l : List α, l.map (fun _ => b) = List.replicate l.length b
  | [] => rfl
  | a :: l => by simp [map_const_eq_replicate b l, List.replicate_succ]

theorem invalidSubshapes_node (S : StatusMap) (d : ShapeData)
    (cs : List TopoShape) :
    invalidSubshapes S (.node d cs) = invalidForest S cs := by
  simp [invalidSubshapes]

/-- One step of the recursive walk: the flagged repetitions of the first
sub-shape, then its own subtree walk, then the walk of its siblings. -/
theorem invalidForest_cons (S : StatusMap) (sub : TopoShape)
    (rest : List TopoShape) :
    invalidForest S (sub :: rest) =
      List.replicate (badCount (S sub.label)) sub ++ invalidSubshapes S sub
        ++ invalidForest S rest := by
  simp only [invalidForest, map_const_eq_replicate, badCount]

theorem treeLabels_eq (c : TopoShape) :
    treeLabels c = c.label :: forestLabels c.children := by
  cases c with
  | node d cs => simp [treeLabels, TopoShape.label, TopoShape.children]

theorem forestLabels_cons (c : TopoShape) (r : List TopoShape) :
    forestLabels (c :: r) = treeLabels c ++ forestLabels r := by
  simp [forestLabels]

theorem label_mem_treeLabels (c : TopoShape) : c.label ∈ treeLabels c := by
  rw [treeLabels_eq]
  exact List.mem_cons_self _ _

/-- p occurs strictly below t in the sub-shape tree: it is one of t's
immediate sub-shapes, or occurs below one of them. -/
inductive IsSubnode : TopoShape → TopoShape → Prop where
  | here {t c : TopoShape} : c ∈ t.children → IsSubnode c t
  | deeper {t c p : TopoShape} : c ∈ t.children → IsSubnode p c → IsSubnode p t

theorem IsSubnode.child_trans {t p c : TopoShape} (h : IsSubnode p t)
    (hc : c ∈ p.children) : IsSubnode c t := by
  induction h with
  | here hm => exact .deeper hm (.here hc)
  | deeper hm _ ih => exact .deeper hm (ih hc)

theorem treeLabels_sublist_forest {c : TopoShape} :
    ∀ {cs : List TopoShape}, c ∈ cs →
      List.Sublist (treeLabels c) (forestLabels cs) := by
  intro cs
  induction cs with
  | nil => intro h; cases h
  | cons a r ih =>
      intro h
      rw [forestLabels_cons]
      rcases List.mem_cons.mp h with h | h
      · subst h; exact List.sublist_append_left _ _
      · exact (ih h).trans (List.sublist_append_right _ _)

theorem forestLabels_children_sublist (c : TopoShape) :
    List.Sublist (forestLabels c.children) (treeLabels c) := by
  rw [treeLabels_eq]
  exact List.sublist_cons_self _ _

theorem subnode_labels_sublist {t p : TopoShape} (h : IsSubnode p t) :
    List.Sublist (treeLabels p) (forestLabels t.children) := by
  induction h with
  | here hm => exact treeLabels_sublist_forest hm
  | deeper hm _ ih =>
      exact (ih.trans (forestLabels_children_sublist _)).trans
        (treeLabels_sublist_forest hm)

theorem subnode_labels_sublist_tree {t p : TopoShape} (h : IsSubnode p t) :
    List.Sublist (treeLabels p) (treeLabels t) :=
  (subnode_labels_sublist h).trans (forestLabels_children_sublist t)

/-- Every shape the walk emits has its label somewhere in the forest it
walked: the walk never invents sub-shapes. -/
theorem label_mem_of_mem_invalidForest (S : StatusMap) :
    ∀ (cs : List TopoShape), ∀ x ∈ invalidForest S cs, x.label ∈ forestLabels cs
  | [] => by simp [invalidForest]
  | sub :: rest => by
      intro x hx
      rw [invalidForest_cons] at hx
      rw [forestLabels_cons]
      rcases List.mem_append.mp hx with hx | hx
      · rcases List.mem_append.mp hx with hx | hx
        · have hxe := List.eq_of_mem_replicate hx
          subst hxe
          exact List.mem_append_left _ (label_mem_treeLabels _)
        · cases sub with
          | node d cs' =>
              have hrec := label_mem_of_mem_invalidForest S cs' x
                (by simpa [invalidSubshapes] using hx)
              refine List.mem_append_left _ ?_
              rw [treeLabels_eq]
              exact List.mem_cons_of_mem _
                (by simpa [TopoShape.children] using hrec)
      · exact List.mem_append_right _
          (label_mem_of_mem_invalidForest S rest x hx)
termination_by cs => sizeOf cs

theorem forestClean_cons (S : StatusMap) (c : TopoShape) (r : List TopoShape) :
    forestClean S (c :: r) = (subtreeClean S c && forestClean S r) := by
  simp [forestClean]

theorem subtreeClean_of_mem {S : StatusMap} :
    ∀ {cs : List TopoShape} {c : TopoShape}, c ∈ cs →
      forestClean S cs = true → subtreeClean S c = true := by
  intro cs
  induction cs with
  | nil => intro c h; cases h
  | cons a r ih =>
      intro c h hf
      rw [forestClean_cons, Bool.and_eq_true] at hf
      rcases List.mem_cons.mp h with h | h
      · subst h; exact hf.1
      · exact ih h hf.2

theorem subtreeClean_children {S : StatusMap} {t : TopoShape}
    (h : subtreeClean S t = true) : forestClean S t.children = true := by
  cases t with
  | node d cs =>
      simp only [subtreeClean, Bool.and_eq_true] at h
      simpa [TopoShape.children] using h.2

theorem subtreeClean_root {S : StatusMap} {t : TopoShape}
    (h : subtreeClean S t = true) :
    (S t.label).all (fun st => st == BRepCheckStatus.noError) = true := by
  cases t with
  | node d cs =>
      simp only [subtreeClean, Bool.and_eq_true] at h
      simpa [TopoShape.label] using h.1

theorem badCount_eq_zero_of_clean {l : List BRepCheckStatus}
    (h : l.all (fun st => st == BRepCheckStatus.noError) = true) :
    badCount l = 0 := by
  have h' := List.all_eq_true.mp h
  rw [badCount, List.length_eq_zero, List.filter_eq_nil_iff]
  intro a ha
  have := h' a ha
  simp_all

/-- A clean analyzer verdict for a shape means a clean status list for
every node strictly below it. -/
theorem clean_subnode {S : StatusMap} {t p : TopoShape} (h : IsSubnode p t) :
    subtreeClean S t = true → badCount (S p.label) = 0 := by
  induction h with
  | here hm =>
      intro hc
      exact badCount_eq_zero_of_clean
        (subtreeClean_root (subtreeClean_of_mem hm (subtreeClean_children hc)))
  | deeper hm _ ih =>
      intro hc
      exact ih (subtreeClean_of_mem hm (subtreeClean_children hc))

theorem invalidSubshapes_eq_children (S : StatusMap) (t : TopoShape) :
    invalidSubshapes S t = invalidForest S t.children := by
  cases t with
  | node d cs => simp [invalidSubshapes, TopoShape.children]

theorem label_mem_treeLabels_of_mem_walk {S : StatusMap} {c x : TopoShape}
    (hx : x ∈ invalidSubshapes S c) : x.label ∈ treeLabels c := by
  rw [invalidSubshapes_eq_children] at hx
  rw [treeLabels_eq]
  exact List.mem_cons_of_mem _ (label_mem_of_mem_invalidForest S c.children x hx)

theorem nodup_forest_of_nodup_tree {t : TopoShape}
    (h : (treeLabels t).Nodup) : (forestLabels t.children).Nodup :=
  List.Nodup.sublist (forestLabels_children_sublist t) h

/-- Walking a forest that contains p splits as: a region whose labels all
lie outside p's subtree, then p's flagged repetitions followed by p's own
subtree walk, then another region whose labels lie outside p's subtree. -/
theorem invalidForest_decomp (S : StatusMap) {p : TopoShape} :
    ∀ {cs : List TopoShape}, p ∈ cs → (forestLabels cs).Nodup →
    ∃ pre post, invalidForest S cs =
        pre ++ (List.replicate (badCount (S p.label)) p ++ invalidSubshapes S p)
          ++ post
      ∧ (∀ x ∈ pre, x.label ∉ treeLabels p)
      ∧ (∀ x ∈ post, x.label ∉ treeLabels p) := by
  intro cs
  induction cs with
  | nil => intro h; cases h
  | cons c rest ih =>
      intro h hnd
      rw [forestLabels_cons] at hnd
      have hdisj := List.disjoint_of_nodup_append hnd
      rcases List.mem_cons.mp h with h | h
      · subst h
        refine ⟨[], invalidForest S rest, ?_, ?_, ?_⟩
        · rw [invalidForest_cons]
          simp [List.append_assoc]
        · intro x hx; cases hx
        · intro x hx hmem
          exact hdisj hmem (label_mem_of_mem_invalidForest S rest x hx)
      · obtain ⟨pre, post, heq, hpre, hpost⟩ :=
          ih h (List.Nodup.of_append_right hnd)
        have hsubp : ∀ a ∈ treeLabels p, a ∈ forestLabels rest :=
          fun a ha => (treeLabels_sublist_forest h).subset ha
        refine ⟨List.replicate (badCount (S c.label)) c ++ invalidSubshapes S c
            ++ pre, post, ?_, ?_, hpost⟩
        · rw [invalidForest_cons, heq]
          simp [List.append_assoc]
        · intro x hx hmem
          rcases List.mem_append.mp hx with hx | hx
          · rcases List.mem_append.mp hx with hx | hx
            · have hxe := List.eq_of_mem_replicate hx
              subst hxe
              exact hdisj (label_mem_treeLabels x) (hsubp _ hmem)
            · exact hdisj (label_mem_treeLabels_of_mem_walk hx) (hsubp _ hmem)
          · exact hpre x hx hmem

/-- Walking a tree splits around any node p strictly below the root in the
same way; the two outer regions never mention a label of p's subtree. -/
theorem invalid_walk_decomp (S : StatusMap) {t p : TopoShape}
    (h : IsSubnode p t) :
    (treeLabels t).Nodup →
    ∃ pre post, invalidSubshapes S t =
        pre ++ (List.replicate (badCount (S p.label)) p ++ invalidSubshapes S p)
          ++ post
      ∧ (∀ x ∈ pre, x.label ∉ treeLabels p)
      ∧ (∀ x ∈ post, x.label ∉ treeLabels p) := by
  induction h with
  | here hm =>
      intro hnd
      obtain ⟨pre, post, heq, hpre, hpost⟩ :=
        invalidForest_decomp S hm (nodup_forest_of_nodup_tree hnd)
      refine ⟨pre, post, ?_, hpre, hpost⟩
      rw [invalidSubshapes_eq_children]
      exact heq
  | deeper hm hsub ih =>
      intro hnd
      rename_i t c p
      have hndc : (treeLabels c).Nodup :=
        List.Nodup.sublist (subnode_labels_sublist_tree (.here hm)) hnd
      obtain ⟨pre1, post1, heq1, hpre1, hpost1⟩ := ih hndc
      obtain ⟨pre0, post0, heq0, hpre0, hpost0⟩ :=
        invalidForest_decomp S hm (nodup_forest_of_nodup_tree hnd)
      have hsubset : ∀ a ∈ treeLabels p, a ∈ treeLabels c :=
        fun a ha => (subnode_labels_sublist_tree hsub).subset ha
      have hcp : c.label ∉ treeLabels p := by
        intro hmem
        have h1 : c.label ∈ forestLabels c.children :=
          (subnode_labels_sublist hsub).subset hmem
        rw [treeLabels_eq] at hndc
        exact (List.nodup_cons.mp hndc).1 h1
      refine ⟨pre0 ++ List.replicate (badCount (S c.label)) c ++ pre1,
        post1 ++ post0, ?_, ?_, ?_⟩
      · rw [invalidSubshapes_eq_children, heq0, heq1]
        simp [List.append_assoc]
      · intro x hx hmem
        rcases List.mem_append.mp hx with hx | hx
        · rcases List.mem_append.mp hx with hx | hx
          · exact hpre0 x hx (hsubset _ hmem)
          · have hxe := List.eq_of_mem_replicate hx
            subst hxe
            exact hcp hmem
        · exact hpre1 x hx hmem
      · intro x hx hmem
        rcases List.mem_append.mp hx with hx | hx
        · exact hpost1 x hx hmem
        · exact hpost0 x hx (hsubset _ hmem)

/-- C6: for a validator run on a shape whose sub-shape labels are
distinct, a flagged sub-shape P with a flagged direct child C both appear
in invalid_shapes, and P appears strictly before C: the walk emits flagged
nodes parent-first in iteration order and descends into every child's own
children whether or not that child was itself flagged (P may sit below
unflagged ancestors). -/
theorem invalid_shapes_preorder (S : StatusMap) (shape : TopoShape)
    (geom dump : Bool) (c : CheckShape) (P C : TopoShape)
    (hmk : CheckShape.make S shape geom dump = .ok c)
    (hnd : (treeLabels shape).Nodup)
    (hsub : IsSubnode P shape) (hchild : C ∈ P.children)
    (hPbad : 0 < badCount (S P.label)) (hCbad : 0 < badCount (S C.label)) :
    P ∈ c.invalid_shapes ∧ C ∈ c.invalid_shapes ∧
      c.invalid_shapes.indexOf P < c.invalid_shapes.indexOf C := by
  have hclean : ¬ subtreeClean S shape = true := by
    intro hcl
    have := clean_subnode hsub hcl
    omega
  have hn : shape.isNull = false := by
    cases hn : shape.isNull
    · rfl
    · rw [CheckShape.make_eq_error S shape geom dump hn] at hmk
      cases hmk
  rw [CheckShape.make_eq_ok S shape geom dump hn] at hmk
  injection hmk with hmk
  subst hmk
  have hlist : (⟨⟨shape, S⟩,
      if subtreeClean S shape then [] else invalidSubshapes S shape⟩
      : CheckShape).invalid_shapes = invalidSubshapes S shape := by
    simp [CheckShape.invalid_shapes, hclean]
  rw [hlist]
  have hsubC : IsSubnode C shape := hsub.child_trans hchild
  have hndP : (treeLabels P).Nodup :=
    List.Nodup.sublist (subnode_labels_sublist_tree hsub) hnd
  have hCmemForest : C.label ∈ forestLabels P.children :=
    (treeLabels_sublist_forest hchild).subset (label_mem_treeLabels C)
  have hCmemP : C.label ∈ treeLabels P := by
    rw [treeLabels_eq]
    exact List.mem_cons_of_mem _ hCmemForest
  have hPCne : C ≠ P := by
    intro he
    rw [treeLabels_eq] at hndP
    exact (List.nodup_cons.mp hndP).1 (he ▸ hCmemForest)
  obtain ⟨pre, post, heq, hpre, hpost⟩ := invalid_walk_decomp S hsub hnd
  have hPpre : P ∉ pre := fun hp => hpre P hp (label_mem_treeLabels P)
  have hCpre : C ∉ pre := fun hp => hpre C hp hCmemP
  have hCrep : C ∉ List.replicate (badCount (S P.label)) P := fun hc =>
    hPCne (List.eq_of_mem_replicate hc)
  obtain ⟨k, hk⟩ : ∃ k, badCount (S P.label) = k + 1 :=
    ⟨badCount (S P.label) - 1, by omega⟩
  refine ⟨?_, ?_, ?_⟩
  · rw [heq]
    have hmem : P ∈ List.replicate (badCount (S P.label)) P :=
      List.mem_replicate.mpr ⟨by omega, rfl⟩
    exact List.mem_append_left _
      (List.mem_append_right _ (List.mem_append_left _ hmem))
  · obtain ⟨pre2, post2, heq2, hpre2, hpost2⟩ := invalid_walk_decomp S hsubC hnd
    rw [heq2]
    have hmem : C ∈ List.replicate (badCount (S C.label)) C :=
      List.mem_replicate.mpr ⟨by omega, rfl⟩
    exact List.mem_append_left _
      (List.mem_append_right _ (List.mem_append_left _ hmem))
  · rw [heq, List.append_assoc,
      List.indexOf_append_of_not_mem hPpre, List.indexOf_append_of_not_mem hCpre]
    apply Nat.add_lt_add_left
    rw [List.append_assoc, List.indexOf_append_of_not_mem hCrep, hk,
      List.replicate_succ, List.cons_append, List.indexOf_cons_self]
    simp only [List.length_cons]
    omega

/-- A solid (label 0) holding a face (label 1) which holds an edge
(label 2). -/
def nestedTree : TopoShape :=
  .node ⟨0, .solid, false⟩ [.node ⟨1, .face, false⟩ [.node ⟨2, .edge, false⟩ []]]

/-- The face sub-shape of nestedTree. -/
def nestedFace : TopoShape := .node ⟨1, .face, false⟩ [.node ⟨2, .edge, false⟩ []]

/-- The edge sub-shape of nestedTree. -/
def nestedEdge : TopoShape := .node ⟨2, .edge, false⟩ []

/-- Statuses flagging the face (one defect status) and its edge child (one
defect status); the root is clean. -/
def nestedStatus : StatusMap := fun l =>
  if l == 1 then [.badStatus 1] else if l == 2 then [.badStatus 2] else [.noError]

/-- The CheckShape value produced by the nested run. -/
def nestedCheck : CheckShape :=
  ⟨⟨nestedTree, nestedStatus⟩, invalidSubshapes nestedStatus nestedTree⟩

/-- C6 witness: the pre-order guarantee evaluated on the concrete nested
run — the flagged face precedes its flagged edge child in
invalid_shapes. -/
theorem invalid_shapes_preorder_witness :
    (treeLabels nestedTree).Nodup ∧
    0 < badCount (nestedStatus nestedFace.label) ∧
    0 < badCount (nestedStatus nestedEdge.label) ∧
    nestedFace ∈ nestedCheck.invalid_shapes ∧
    nestedEdge ∈ nestedCheck.invalid_shapes ∧
    nestedCheck.invalid_shapes.indexOf nestedFace <
      nestedCheck.invalid_shapes.indexOf nestedEdge :=
  have h := invalid_shapes_preorder nestedStatus nestedTree true false
    nestedCheck nestedFace nestedEdge rfl (by decide)
    (.here (by decide)) (by decide) (by decide) (by decide)
  ⟨by decide, by decide, by decide, h.1, h.2.1, h.2.2⟩

/-- C9: the walk appends a sub-shape once per non-NoError status of its
result list, so the multiplicity of a node of the tree in the accumulator
equals the number of its non-NoError statuses — in particular the same
sub-shape reference occurs several times when it carries several defect
statuses. -/
theorem invalid_shapes_multiplicity (S : StatusMap) {t p : TopoShape}
    (hnd : (treeLabels t).Nodup) (hsub : IsSubnode p t) :
    (invalidSubshapes S t).count p = badCount (S p.label) := by
  obtain ⟨pre, post, heq, hpre, hpost⟩ := invalid_walk_decomp S hsub hnd
  have hndp : (treeLabels p).Nodup :=
    List.Nodup.sublist (subnode_labels_sublist_tree hsub) hnd
  have hself : p.label ∉ forestLabels p.children := by
    rw [treeLabels_eq] at hndp
    exact (List.nodup_cons.mp hndp).1
  have hp_pre : p ∉ pre := fun hp => hpre p hp (label_mem_treeLabels p)
  have hp_post : p ∉ post := fun hp => hpost p hp (label_mem_treeLabels p)
  have hp_walk : p ∉ invalidSubshapes S p := fun hp => by
    apply hself
    rw [invalidSubshapes_eq_children] at hp
    exact label_mem_of_mem_invalidForest S p.children p hp
  rw [heq, List.count_append, List.count_append, List.count_append,
    List.count_eq_zero.mpr hp_pre, List.count_eq_zero.mpr hp_post,
    List.count_eq_zero.mpr hp_walk, List.count_replicate_self]
  omega

/-- A solid (label 0) holding one face (label 1). -/
def dupTree : TopoShape := .node ⟨0, .solid, false⟩ [.node ⟨1, .face, false⟩ []]

/-- The face sub-shape of dupTree. -/
def dupChild : TopoShape := .node ⟨1, .face, false⟩ []

/-- Statuses giving the face two distinct defect statuses. -/
def dupStatus : StatusMap := fun l =>
  if l == 1 then [.badStatus 1, .badStatus 2] else [.noError]

/-- C9 witness: a sub-shape with two distinct defect statuses occurs twice
in the accumulator. -/
theorem invalid_shapes_multiplicity_witness :
    (treeLabels dupTree).Nodup ∧
    (invalidSubshapes dupStatus dupTree).count dupChild
      = badCount (dupStatus dupChild.label) ∧
    (invalidSubshapes dupStatus dupTree).count dupChild = 2 :=
  ⟨by decide,
    invalid_shapes_multiplicity dupStatus (by decide) (.here (by decide)),
    by decide⟩

end Afem
